import Mathlib

/-!
Shallow embedding of the GPS sentence framer / classifier / field decoders /
fix-state aggregator of `gpsSensor.py` (class `GpsModule`).

Modelling conventions:
* Python floats are modelled as exact rationals (ℚ); all concrete inputs used
  below stay far away from any rounding-sensitive boundary.
* Python `float(s)` / `int(s)` are modelled by `parseFloat` / `parseInt` on the
  fragment of literals this module ever receives: an optional sign, decimal
  digits and at most one point.  `None` models a raised `ValueError`.
* A raised, uncaught exception is modelled by the `Except.error` constructor;
  the carried value is the object state as mutated up to the raise point,
  since the Python methods mutate `self` in place.  `parseGpggaSentence`
  catches its `ValueError` internally, so it is total and returns the Python
  method's boolean result together with the (possibly partially mutated)
  state.
* Strings are processed through explicit structural functions over their
  character lists so that every concrete run reduces inside the kernel.
-/

namespace GpsModule

/-- Splits a character list at every occurrence of the separator character,
keeping empty segments, exactly like Python `str.split(sep)` for a one
character separator.  The accumulator holds the current segment reversed. -/
def splitOnCharAux (sep : Char) : List Char → List Char → List (List Char)
  | [], acc => [acc.reverse]
  | c :: rest, acc =>
      if c = sep then acc.reverse :: splitOnCharAux sep rest []
      else splitOnCharAux sep rest (c :: acc)

/-- Models Python `sentence.split(',')`. -/
def splitComma (s : String) : List String :=
  (splitOnCharAux ',' s.data []).map String.mk

/-- Boolean check that the second list is an initial segment of the first. -/
def listStartsWith : List Char → List Char → Bool
  | _, [] => true
  | [], _ :: _ => false
  | c :: cs, p :: ps => c = p && listStartsWith cs ps

/-- Models Python `line.startswith(tag)`. -/
def strStartsWith (s tag : String) : Bool :=
  listStartsWith s.data tag.data

/-- Models the Python slice `s[:n]`. -/
def strTake (s : String) (n : ℕ) : String :=
  String.mk (s.data.take n)

/-- Models the Python slice `s[n:]`. -/
def strDrop (s : String) (n : ℕ) : String :=
  String.mk (s.data.drop n)

/-- True when the character list contains an adjacent CR LF pair. -/
def hasCrlf : List Char → Bool
  | [] => false
  | [_] => false
  | c :: c2 :: rest => (c = '\r' && c2 = '\n') || hasCrlf (c2 :: rest)

/-- Splits a character list on every (leftmost, non-overlapping) CR LF pair,
keeping empty segments and emitting the trailing segment after the last
terminator, exactly like Python `data.split('\r\n')`. -/
def splitCrlfAux : List Char → List Char → List String
  | [], acc => [String.mk acc.reverse]
  | [c], acc => [String.mk (acc.reverse ++ [c])]
  | c :: c2 :: rest, acc =>
      if c = '\r' ∧ c2 = '\n' then String.mk acc.reverse :: splitCrlfAux rest []
      else splitCrlfAux (c2 :: rest) (c :: acc)

/-- Models Python `gpsData.split('\r\n')`. -/
def splitCrlf (s : String) : List String :=
  splitCrlfAux s.data []

/-- True when every character of the list is a decimal digit. -/
def allDigits (l : List Char) : Bool :=
  l.all fun c => c.isDigit

/-- Numeric value of a list of decimal digits, most significant first. -/
def digitsToNat (l : List Char) : ℕ :=
  l.foldl (fun a c => 10 * a + (c.toNat - 48)) 0

/-- Unsigned part of a Python float literal: decimal digits with at most one
point and at least one digit overall. -/
def parseUnsigned (l : List Char) : Option ℚ :=
  match splitOnCharAux '.' l [] with
  | [ip] =>
      if ip ≠ [] ∧ allDigits ip = true then some (digitsToNat ip : ℚ) else none
  | [ip, fp] =>
      if (ip ≠ [] ∨ fp ≠ []) ∧ allDigits ip = true ∧ allDigits fp = true then
        some ((digitsToNat ip : ℚ) + (digitsToNat fp : ℚ) / (10 : ℚ) ^ fp.length)
      else none
  | _ => none

/-- Models Python `float(s)` on the plain decimal literals this module ever
receives (optional sign, digits, optional fractional part).  `none` models a
raised `ValueError`. -/
def parseFloat (s : String) : Option ℚ :=
  match s.data with
  | '-' :: rest => (parseUnsigned rest).map (fun q => -q)
  | '+' :: rest => parseUnsigned rest
  | l => parseUnsigned l

/-- Unsigned part of a Python int literal: a nonempty list of digits. -/
def parseIntDigits (l : List Char) : Option ℤ :=
  if l ≠ [] ∧ allDigits l = true then some (digitsToNat l : ℤ) else none

/-- Models Python `int(s)` on plain decimal integer literals; `none` models a
raised `ValueError`. -/
def parseInt (s : String) : Option ℤ :=
  match s.data with
  | '-' :: rest => (parseIntDigits rest).map (fun z => -z)
  | '+' :: rest => parseIntDigits rest
  | l => parseIntDigits l

/-- Models Python `int(x)` on a float: truncation toward zero. -/
def pyInt (x : ℚ) : ℤ :=
  if 0 ≤ x then ⌊x⌋ else -⌊-x⌋

/-- Models the Python float `%` operator: floored modulo. -/
def pyMod (x y : ℚ) : ℚ :=
  x - y * (⌊x / y⌋ : ℤ)

/-- The mutable fix state of `GpsModule`: the eleven `self.*` data fields set
by `resetGpsData` and mutated by the sentence decoders.  `none` is Python
`None` (field absent). -/
structure GpsState where
  latitude : Option ℚ
  longitude : Option ℚ
  latitudeDirection : Option String
  longitudeDirection : Option String
  speed : Option ℚ
  altitude : Option ℚ
  fixQuality : Option ℤ
  numSatellites : Option ℤ
  hdop : Option ℚ
  time : Option String
  date : Option String
deriving DecidableEq

/-- Models `GpsModule.resetGpsData`: every field set to `None`. -/
def resetGpsData : GpsState :=
  { latitude := none, longitude := none, latitudeDirection := none,
    longitudeDirection := none, speed := none, altitude := none,
    fixQuality := none, numSatellites := none, hdop := none,
    time := none, date := none }

/-- Models `GpsModule.convertToDecimal(degreeMin, direction)` (the string
sliced RMC path): empty inputs give `(None, None)`; otherwise
`float(degreeMin[:2])` and `float(degreeMin[2:])` are combined as
`degree + minute/60`, negated for `S`/`W`.  `Except.error` models the
`ValueError` raised when a slice fails to parse. -/
def convertToDecimal (degreeMin direction : String) :
    Except Unit (Option ℚ × Option String) :=
  if degreeMin = "" ∨ direction = "" then .ok (none, none)
  else
    match parseFloat (strTake degreeMin 2) with
    | none => .error ()
    | some degree =>
      match parseFloat (strDrop degreeMin 2) with
      | none => .error ()
      | some minute =>
        let decimal := degree + minute / 60
        .ok (some (if direction = "S" ∨ direction = "W" then -decimal else decimal),
             some direction)

/-- Models `GpsModule.convertToDecimalDegree(value, direction)` (the numeric
split GGA path): `int(value / 100)` whole degrees, `value % 100` minutes,
`degree + minute/60`, negated for `S`/`W`. -/
def convertToDecimalDegree (value : ℚ) (direction : String) : ℚ :=
  let degree : ℚ := (pyInt (value / 100) : ℤ)
  let minute : ℚ := pyMod value 100
  let decimal := degree + minute / 60
  if direction = "S" ∨ direction = "W" then -decimal else decimal

/-- Field access `parts[i]` for positions known to be in range (used where the
Python code is protected by an arity guard). -/
def fld (parts : List String) (i : ℕ) : String :=
  parts[i]?.getD ""

/-- Models `GpsModule.parseGprmcSentence` on the already split field list.
Mutations happen in source order (`time`, latitude pair, longitude pair,
`speed`, `date`); an `Except.error` carries the state mutated so far, since a
raised `ValueError`/`IndexError` escapes the method after the in-place
mutations that preceded it. -/
def parseGprmcParts (st : GpsState) (parts : List String) :
    Except GpsState GpsState :=
  if parts[2]? = some "A" then
    match parts[1]? with
    | none => .error st
    | some f1 =>
      let st1 := { st with time := some f1 }
      match parts[3]?, parts[4]? with
      | some f3, some f4 =>
        (match convertToDecimal f3 f4 with
         | .error _ => .error st1
         | .ok (lat, latDir) =>
           let st2 := { st1 with latitude := lat, latitudeDirection := latDir }
           match parts[5]?, parts[6]? with
           | some f5, some f6 =>
             (match convertToDecimal f5 f6 with
              | .error _ => .error st2
              | .ok (lon, lonDir) =>
                let st3 := { st2 with longitude := lon, longitudeDirection := lonDir }
                match parts[7]? with
                | none => .error st3
                | some f7 =>
                  if f7 = "" then
                    let st4 := { st3 with speed := none }
                    match parts[9]? with
                    | none => .error st4
                    | some f9 => .ok { st4 with date := some f9 }
                  else
                    match parseFloat f7 with
                    | none => .error st3
                    | some v =>
                      let st4 := { st3 with speed := some (v * (1852 / 1000)) }
                      match parts[9]? with
                      | none => .error st4
                      | some f9 => .ok { st4 with date := some f9 })
           | _, _ => .error st2)
      | _, _ => .error st1
  else .ok st

/-- Models `GpsModule.parseGprmcSentence(sentence)`. -/
def parseGprmcSentence (st : GpsState) (sentence : String) :
    Except GpsState GpsState :=
  parseGprmcParts st (splitComma sentence)

/-- Models `GpsModule.parseGpggaSentence` on the already split field list.
The Python method wraps its body in `try ... except ValueError: return False`,
so it never raises; the boolean is its return value and the returned state
keeps every in-place mutation made before a failing parse. -/
def parseGpggaParts (st : GpsState) (parts : List String) : Bool × GpsState :=
  if parts.length < 15 then (false, st)
  else
    match parseFloat (fld parts 2) with
    | none => (false, st)
    | some latRaw =>
      let s1 := { st with latitude := some latRaw }
      let s2 := { s1 with latitudeDirection := some (fld parts 3) }
      match parseFloat (fld parts 4) with
      | none => (false, s2)
      | some lonRaw =>
        let s3 := { s2 with longitude := some lonRaw }
        let s4 := { s3 with longitudeDirection := some (fld parts 5) }
        match parseInt (fld parts 6) with
        | none => (false, s4)
        | some fq =>
          let s5 := { s4 with fixQuality := some fq }
          match parseInt (fld parts 7) with
          | none => (false, s5)
          | some ns =>
            let s6 := { s5 with numSatellites := some ns }
            match parseFloat (fld parts 8) with
            | none => (false, s6)
            | some hd =>
              let s7 := { s6 with hdop := some hd }
              match parseFloat (fld parts 9) with
              | none => (false, s7)
              | some alt =>
                let s8 := { s7 with altitude := some alt }
                let s9 := { s8 with time := some (fld parts 1) }
                let s10 := { s9 with
                  latitude := some (convertToDecimalDegree latRaw (fld parts 3)) }
                let s11 := { s10 with
                  longitude := some (convertToDecimalDegree lonRaw (fld parts 5)) }
                (true, s11)

/-- Models `GpsModule.parseGpggaSentence(sentence)`. -/
def parseGpggaSentence (st : GpsState) (sentence : String) : Bool × GpsState :=
  parseGpggaParts st (splitComma sentence)

/-- Models `GpsModule.parseGpvtgSentence` on the already split field list:
`self.speed = float(parts[7]) if parts[7] else None`. -/
def parseGpvtgParts (st : GpsState) (parts : List String) :
    Except GpsState GpsState :=
  match parts[7]? with
  | none => .error st
  | some f7 =>
    if f7 = "" then .ok { st with speed := none }
    else
      match parseFloat f7 with
      | none => .error st
      | some v => .ok { st with speed := some v }

/-- Models `GpsModule.parseGpvtgSentence(sentence)`. -/
def parseGpvtgSentence (st : GpsState) (sentence : String) :
    Except GpsState GpsState :=
  parseGpvtgParts st (splitComma sentence)

/-- Models one iteration of the `readData` line loop: tag dispatch with the
per-kind arity guard; unrecognised lines leave the state unchanged. -/
def processLine (st : GpsState) (line : String) : Except GpsState GpsState :=
  if strStartsWith line "$GPRMC" = true then
    if 10 ≤ (splitComma line).length then parseGprmcSentence st line else .ok st
  else if strStartsWith line "$GPGGA" = true then
    if 15 ≤ (splitComma line).length then .ok (parseGpggaSentence st line).2
    else .ok st
  else if strStartsWith line "$GPVTG" = true then
    if 8 ≤ (splitComma line).length then parseGpvtgSentence st line else .ok st
  else .ok st

/-- Runs `processLine` over the framed lines in order; a raised exception
aborts the loop and escapes, exactly like the Python `for` body. -/
def processLines (st : GpsState) : List String → Except GpsState GpsState
  | [] => .ok st
  | l :: rest =>
    match processLine st l with
    | .ok st2 => processLines st2 rest
    | .error st2 => .error st2

/-- Models `GpsModule.readData` on an already decoded text buffer: when bytes
arrived, frame on CR LF and run every candidate line through the dispatcher. -/
def readData (st : GpsState) (buf : String) : Except GpsState GpsState :=
  if buf = "" then .ok st
  else processLines st (splitCrlf buf)

/-- Final object state of a decode, whether the method returned normally or
raised (the Python object keeps its in-place mutations in both cases). -/
def finalState : Except GpsState GpsState → GpsState
  | .ok s => s
  | .error s => s

/-- Guarded list indexing agrees with the total accessor `fld`. -/
theorem get?_eq_fld (parts : List String) (i : ℕ) (h : i < parts.length) :
    parts[i]? = some (fld parts i) := by
  rw [List.getElem?_eq_getElem h]
  simp [fld, List.getElem?_eq_getElem h]

/-- C9: an RMC sentence whose status field (field 2) is `V` produces no update
at all: the state is returned unchanged and no failure is raised, because the
whole decoder body is guarded by `parts[2] == 'A'`. -/
theorem void_rmc_is_inert (st : GpsState) (s : String)
    (h : (splitComma s)[2]? = some "V") :
    parseGprmcSentence st s = Except.ok st := by
  simp [parseGprmcSentence, parseGprmcParts, h]

/-- Witness for `void_rmc_is_inert` at the spec's example void sentence. -/
theorem void_rmc_is_inert_witness :
    parseGprmcSentence resetGpsData
      "$GPRMC,123519,V,4807.038,N,01131.000,E,022.4,084.4,230394,," =
      Except.ok resetGpsData :=
  void_rmc_is_inert resetGpsData
    "$GPRMC,123519,V,4807.038,N,01131.000,E,022.4,084.4,230394,," (by decide)

/-- C2: the two coordinate-conversion paths diverge on a DDDMM.mmmm longitude
field.  The string field "01131.000" parses to the float 1131.0, yet the
string-sliced RMC path slices only two degree digits and returns
1 + 131/60 = 191/60 ≈ 3.1833, while the numeric-split GGA path returns
11 + 31/60 = 691/60 ≈ 11.5167. -/
theorem conversion_paths_diverge :
    parseFloat "01131.000" = some (1131 : ℚ) ∧
    convertToDecimal "01131.000" "E" =
      Except.ok (some (191 / 60 : ℚ), some "E") ∧
    convertToDecimalDegree (1131 : ℚ) "E" = 691 / 60 ∧
    (191 / 60 : ℚ) ≠ 691 / 60 := by
  refine ⟨?_, ?_, ?_, by norm_num⟩
  · simp [parseFloat, parseUnsigned, splitOnCharAux, allDigits, digitsToNat]
  · simp [convertToDecimal, strTake, strDrop, parseFloat, parseUnsigned,
      splitOnCharAux, allDigits, digitsToNat]
    norm_num
  · simp [convertToDecimalDegree, pyInt, pyMod]
    norm_num [Int.floor_eq_iff]

/-- C3: decoding the active RMC sentence of the claim takes only the leading
two characters of the longitude field "01131.000" as degrees, yielding
longitude 191/60 ≈ 3.1833 in the state, not the three-degree-digit reading
691/60 ≈ 11.5167 that the claim requires. -/
theorem rmc_longitude_uses_two_degree_digits :
    processLine resetGpsData
      "$GPRMC,123519,A,4807.038,N,01131.000,E,022.4,084.4,230394,," =
      Except.ok { resetGpsData with
        latitude := some (481173 / 10000 : ℚ),
        longitude := some (191 / 60 : ℚ),
        latitudeDirection := some "N", longitudeDirection := some "E",
        speed := some (25928 / 625 : ℚ),
        time := some "123519", date := some "230394" } ∧
    (191 / 60 : ℚ) ≠ 691 / 60 := by
  refine ⟨?_, by norm_num⟩
  simp [processLine, strStartsWith, listStartsWith, splitComma, splitOnCharAux,
    parseGprmcSentence, parseGprmcParts, convertToDecimal, strTake, strDrop,
    parseFloat, parseUnsigned, allDigits, digitsToNat, resetGpsData]
  norm_num

/-- C4 counterexample: a VTG sentence whose speed field (field 7) is empty
does not leave a previously stored speed untouched: it resets the speed to
`None`, erasing the stored value 10. -/
theorem vtg_empty_speed_erases_counterexample :
    processLine { resetGpsData with speed := some (10 : ℚ) } "$GPVTG,,,,,,,," =
      Except.ok resetGpsData ∧
    ({ resetGpsData with speed := some (10 : ℚ) } : GpsState).speed ≠
      resetGpsData.speed := by
  constructor
  · simp [processLine, strStartsWith, listStartsWith, splitComma,
      splitOnCharAux, parseGpvtgSentence, parseGpvtgParts, resetGpsData]
  · simp [resetGpsData]

/-- C4 as amended: an empty speed field does erase the stored speed rather
than leave it unchanged.  A VTG field list with empty field 7 sets `speed` to
absent while leaving every other field of the state untouched, and an active
RMC field list with an empty speed field likewise ends with `speed` absent. -/
theorem empty_speed_field_sets_speed_absent :
    (∀ (st : GpsState) (parts : List String), parts[7]? = some "" →
      parseGpvtgParts st parts = Except.ok { st with speed := none }) ∧
    (∀ (st : GpsState) (parts : List String) (f1 f9 : String)
      (p q : Option ℚ × Option String),
      parts[1]? = some f1 → parts[2]? = some "A" →
      convertToDecimal (fld parts 3) (fld parts 4) = Except.ok p →
      convertToDecimal (fld parts 5) (fld parts 6) = Except.ok q →
      parts[7]? = some "" → parts[9]? = some f9 →
      10 ≤ parts.length →
      parseGprmcParts st parts = Except.ok { st with
        time := some f1, latitude := p.1, latitudeDirection := p.2,
        longitude := q.1, longitudeDirection := q.2,
        speed := none, date := some f9 }) := by
  constructor
  · intro st parts h7
    simp [parseGpvtgParts, h7]
  · intro st parts f1 f9 p q h1 h2 h34 h56 h7 h9 hlen
    have h3 := get?_eq_fld parts 3 (by omega)
    have h4 := get?_eq_fld parts 4 (by omega)
    have h5 := get?_eq_fld parts 5 (by omega)
    have h6 := get?_eq_fld parts 6 (by omega)
    simp [parseGprmcParts, h1, h2, h3, h4, h5, h6, h7, h9, h34, h56]

/-- Witness for `empty_speed_field_sets_speed_absent`: a VTG sentence with an
empty speed field and an all-empty active RMC sentence, both applied to a
state holding speed 10. -/
theorem empty_speed_field_sets_speed_absent_witness :
    parseGpvtgParts { resetGpsData with speed := some (10 : ℚ) }
      (splitComma "$GPVTG,,,,,,,,") =
      Except.ok { resetGpsData with speed := none } ∧
    parseGprmcParts { resetGpsData with speed := some (10 : ℚ) }
      (splitComma "$GPRMC,1,A,,,,,,,d") =
      Except.ok { resetGpsData with
        time := some "1", latitude := none, latitudeDirection := none,
        longitude := none, longitudeDirection := none,
        speed := none, date := some "d" } :=
  ⟨empty_speed_field_sets_speed_absent.1 _ _ (by decide),
   empty_speed_field_sets_speed_absent.2 _ _ "1" "d" (none, none) (none, none)
     (by rfl) (by rfl) (by rfl) (by rfl) (by rfl) (by rfl) (by decide)⟩

/-- C7 counterexample: an RMC sentence with talker `GN` is not dispatched to
the RMC decoder: the classifier only matches the literal prefixes
`$GPRMC`/`$GPGGA`/`$GPVTG`, so the line is ignored and `time` stays absent,
although the RMC decoder applied to the same line would have set it. -/
theorem other_talker_ignored_counterexample :
    processLine resetGpsData
      "$GNRMC,123519,A,4807.038,N,01131.000,E,022.4,084.4,230394,," =
      Except.ok resetGpsData ∧
    (finalState (parseGprmcSentence resetGpsData
      "$GNRMC,123519,A,4807.038,N,01131.000,E,022.4,084.4,230394,,")).time =
      some "123519" ∧
    resetGpsData.time = none := by
  refine ⟨by rfl, ?_, by rfl⟩
  simp [parseGprmcSentence, parseGprmcParts, splitComma, splitOnCharAux,
    convertToDecimal, strTake, strDrop, parseFloat, parseUnsigned, allDigits,
    digitsToNat, finalState, resetGpsData]

/-- C7 as amended: only lines beginning with the literal strings `$GPRMC`,
`$GPGGA` or `$GPVTG` (talker `GP` only) are dispatched; every other line is
ignored with no error and no state change. -/
theorem unknown_tag_ignored (st : GpsState) (line : String)
    (h1 : strStartsWith line "$GPRMC" = false)
    (h2 : strStartsWith line "$GPGGA" = false)
    (h3 : strStartsWith line "$GPVTG" = false) :
    processLine st line = Except.ok st := by
  simp [processLine, h1, h2, h3]

/-- Witness for `unknown_tag_ignored` at an unknown tag of the spec's
example. -/
theorem unknown_tag_ignored_witness :
    processLine resetGpsData "$GPZZZ,123519,A,4807.038,N" =
      Except.ok resetGpsData :=
  unknown_tag_ignored resetGpsData "$GPZZZ,123519,A,4807.038,N"
    (by decide) (by decide) (by decide)

/-- C1 counterexample: a 15-field GGA sentence whose altitude field "XX.X"
fails numeric parsing is reported as a failed decode, yet `fixQuality` (and
the other fields assigned before the altitude parse) no longer hold the value
they held before the sentence was applied. -/
theorem gga_failure_mutation_counterexample :
    (parseGpggaSentence resetGpsData
      "$GPGGA,123520,4807.038,N,01131.000,E,1,08,0.9,XX.X,M,,,,").1 = false ∧
    (parseGpggaSentence resetGpsData
      "$GPGGA,123520,4807.038,N,01131.000,E,1,08,0.9,XX.X,M,,,,").2.fixQuality =
      some 1 ∧
    resetGpsData.fixQuality = none := by
  refine ⟨by rfl, by rfl, by rfl⟩

/-- C1 as amended: a failing numeric field makes the GGA decode report
failure, but the fields assigned before the failing parse keep their new
values.  With a non-numeric altitude (field 9), `latitude`,
`latitudeDirection`, `longitude`, `longitudeDirection`, `fixQuality`,
`numSatellites` and `hdop` are overwritten — the coordinates with the raw,
unconverted floats — while `time`, `altitude`, `speed` and `date` keep their
previous values. -/
theorem gga_failure_keeps_prior_mutations (st : GpsState) (parts : List String)
    (la lo dil : ℚ) (q n : ℤ)
    (hlen : ¬ parts.length < 15)
    (h2 : parseFloat (fld parts 2) = some la)
    (h4 : parseFloat (fld parts 4) = some lo)
    (h6 : parseInt (fld parts 6) = some q)
    (h7 : parseInt (fld parts 7) = some n)
    (h8 : parseFloat (fld parts 8) = some dil)
    (h9 : parseFloat (fld parts 9) = none) :
    parseGpggaParts st parts =
      (false, { st with
        latitude := some la, latitudeDirection := some (fld parts 3),
        longitude := some lo, longitudeDirection := some (fld parts 5),
        fixQuality := some q, numSatellites := some n, hdop := some dil }) := by
  simp [parseGpggaParts, hlen, h2, h4, h6, h7, h8, h9]

/-- Witness for `gga_failure_keeps_prior_mutations`: the bad-altitude GGA
sentence applied to a fully populated state. -/
theorem gga_failure_keeps_prior_mutations_witness :
    parseGpggaParts
      { latitude := some 1, longitude := some 2, latitudeDirection := some "S",
        longitudeDirection := some "W", speed := some 3, altitude := some 4,
        fixQuality := some 5, numSatellites := some 6, hdop := some 7,
        time := some "t0", date := some "d0" }
      (splitComma "$GPGGA,123520,4807.038,N,01131.000,E,1,08,0.9,XX.X,M,,,,") =
      (false,
       { latitude := some (4807038 / 1000 : ℚ), longitude := some (1131 : ℚ),
         latitudeDirection := some "N", longitudeDirection := some "E",
         speed := some 3, altitude := some 4,
         fixQuality := some 1, numSatellites := some 8,
         hdop := some (9 / 10 : ℚ), time := some "t0", date := some "d0" }) :=
  gga_failure_keeps_prior_mutations _ _ (4807038 / 1000) 1131 (9 / 10) 1 8
    (by decide)
    (by simp [fld, splitComma, splitOnCharAux, parseFloat, parseUnsigned,
          allDigits, digitsToNat]; norm_num)
    (by simp [fld, splitComma, splitOnCharAux, parseFloat, parseUnsigned,
          allDigits, digitsToNat])
    (by rfl) (by rfl)
    (by simp [fld, splitComma, splitOnCharAux, parseFloat, parseUnsigned,
          allDigits, digitsToNat])
    (by rfl)

/-- C5 counterexample: after applying a well-framed GGA sentence whose
altitude field fails to parse, the state's latitude holds the raw
unconverted coordinate 4807.038, far outside [-90, 90]. -/
theorem invariant_violation_counterexample :
    (finalState (processLine resetGpsData
      "$GPGGA,1,4807.038,N,01131.000,E,1,08,0.9,M,M,,,,")).latitude =
      some (4807038 / 1000 : ℚ) ∧
    ¬ ((4807038 : ℚ) / 1000 ≤ 90) := by
  constructor
  · simp [processLine, strStartsWith, listStartsWith, splitComma,
      splitOnCharAux, parseGpggaSentence, parseGpggaParts, fld, parseFloat,
      parseUnsigned, parseInt, parseIntDigits, allDigits, digitsToNat,
      finalState, resetGpsData]
    norm_num
  · norm_num

/-- C5 as amended: the range and sign invariants hold for the coordinate
converter itself, not for the aggregated state after arbitrary operations:
whenever the leading two characters of the coordinate field parse to a degree
value in [0, 89] and the remainder to minutes in [0, 60], `convertToDecimal`
returns a coordinate within [-90, 90] whose sign matches the hemisphere. -/
theorem coordinate_converter_bounded (degreeMin direction : String) (d m : ℚ)
    (hdm : ¬ degreeMin = "") (hdir : ¬ direction = "")
    (hpd : parseFloat (strTake degreeMin 2) = some d)
    (hpm : parseFloat (strDrop degreeMin 2) = some m)
    (hd0 : 0 ≤ d) (hd89 : d ≤ 89) (hm0 : 0 ≤ m) (hm60 : m ≤ 60) :
    ∃ v : ℚ, convertToDecimal degreeMin direction =
        Except.ok (some v, some direction) ∧
      -90 ≤ v ∧ v ≤ 90 ∧
      ((direction = "S" ∨ direction = "W") → v ≤ 0) ∧
      (¬ (direction = "S" ∨ direction = "W") → 0 ≤ v) := by
  have hms : m / 60 ≤ 1 := by linarith
  have hm0s : 0 ≤ m / 60 := by positivity
  refine ⟨if direction = "S" ∨ direction = "W" then -(d + m / 60)
          else d + m / 60, ?_, ?_, ?_, ?_, ?_⟩
  · simp [convertToDecimal, hdm, hdir, hpd, hpm]
  · by_cases hsw : direction = "S" ∨ direction = "W" <;> simp [hsw] <;> linarith
  · by_cases hsw : direction = "S" ∨ direction = "W" <;> simp [hsw] <;> linarith
  · intro hsw; simp [hsw]; linarith
  · intro hsw; simp [hsw]; linarith

/-- Witness for `coordinate_converter_bounded` at the claim's latitude field
4807.038 N. -/
theorem coordinate_converter_bounded_witness :
    ∃ v : ℚ, convertToDecimal "4807.038" "N" = Except.ok (some v, some "N") ∧
      -90 ≤ v ∧ v ≤ 90 ∧
      (("N" = "S" ∨ "N" = "W") → v ≤ 0) ∧
      (¬ ("N" = "S" ∨ "N" = "W") → 0 ≤ v) :=
  coordinate_converter_bounded "4807.038" "N" 48 (7038 / 1000)
    (by decide) (by decide)
    (by simp [strTake, parseFloat, parseUnsigned, splitOnCharAux, allDigits,
          digitsToNat])
    (by simp [strDrop, parseFloat, parseUnsigned, splitOnCharAux, allDigits,
          digitsToNat]; norm_num)
    (by norm_num) (by norm_num) (by norm_num) (by norm_num)

/-- C6 counterexample: a read cycle over a buffer holding a well-framed,
11-field active RMC sentence whose speed field is the non-numeric "abc"
raises an uncaught exception (an `Except.error` escaping `readData`) instead
of completing; the fields assigned before the raise (here `time`) remain. -/
theorem readData_raises_counterexample :
    readData resetGpsData "$GPRMC,1,A,,,,,abc,,0,\r\n" =
      Except.error { resetGpsData with time := some "1" } := by
  simp [readData, splitCrlf, splitCrlfAux, processLines, processLine,
    strStartsWith, listStartsWith, splitComma, splitOnCharAux,
    parseGprmcSentence, parseGprmcParts, convertToDecimal, strTake, strDrop,
    parseFloat, parseUnsigned, allDigits, digitsToNat, resetGpsData]

/-- C6 as amended: the cycle is not exception-safe for RMC/VTG.  A non-empty,
non-numeric speed field in an active RMC field list (empty coordinates shown
here) or in a VTG field list raises an uncaught exception carrying only the
mutations made before the raise; there is no per-field recovery. -/
theorem rmc_vtg_nonnumeric_raises :
    (∀ (st : GpsState) (parts : List String) (f1 f4 f6 f7 : String),
      parts[1]? = some f1 → parts[2]? = some "A" →
      parts[3]? = some "" → parts[4]? = some f4 →
      parts[5]? = some "" → parts[6]? = some f6 →
      parts[7]? = some f7 → ¬ f7 = "" → parseFloat f7 = none →
      parseGprmcParts st parts = Except.error { st with
        time := some f1, latitude := none, latitudeDirection := none,
        longitude := none, longitudeDirection := none }) ∧
    (∀ (st : GpsState) (parts : List String) (f7 : String),
      parts[7]? = some f7 → ¬ f7 = "" → parseFloat f7 = none →
      parseGpvtgParts st parts = Except.error st) := by
  constructor
  · intro st parts f1 f4 f6 f7 h1 h2 h3 h4 h5 h6 h7 hne hpf
    simp [parseGprmcParts, h1, h2, h3, h4, h5, h6, h7, hne, hpf,
      convertToDecimal]
  · intro st parts f7 h7 hne hpf
    simp [parseGpvtgParts, h7, hne, hpf]

/-- Witness for `rmc_vtg_nonnumeric_raises` at concrete RMC and VTG field
lists with speed field "abc". -/
theorem rmc_vtg_nonnumeric_raises_witness :
    parseGprmcParts resetGpsData (splitComma "$GPRMC,1,A,,,,,abc,,0,") =
      Except.error { resetGpsData with
        time := some "1", latitude := none, latitudeDirection := none,
        longitude := none, longitudeDirection := none } ∧
    parseGpvtgParts resetGpsData (splitComma "$GPVTG,,,,,,,abc") =
      Except.error resetGpsData :=
  ⟨rmc_vtg_nonnumeric_raises.1 _ _ "1" "" "" "abc" (by rfl) (by rfl) (by rfl)
     (by rfl) (by rfl) (by rfl) (by rfl) (by decide) (by rfl),
   rmc_vtg_nonnumeric_raises.2 _ _ "abc" (by rfl) (by decide) (by rfl)⟩

/-- C8 counterexample: a buffer with no CRLF terminator at all — a trailing
fragment in its entirety — is not discarded: its VTG sentence is decoded and
the stored speed changes. -/
theorem trailing_fragment_decoded_counterexample :
    readData resetGpsData "$GPVTG,,,,,,,42.5" =
      Except.ok { resetGpsData with speed := some (85 / 2 : ℚ) } ∧
    some (85 / 2 : ℚ) ≠ resetGpsData.speed := by
  constructor
  · simp [readData, splitCrlf, splitCrlfAux, processLines, processLine,
      strStartsWith, listStartsWith, splitComma, splitOnCharAux,
      parseGpvtgSentence, parseGpvtgParts, parseFloat, parseUnsigned,
      allDigits, digitsToNat, resetGpsData]
    norm_num
  · simp [resetGpsData]

/-- Helper: on a chunk with no CR LF pair the framer emits exactly one
segment, the whole chunk appended to the pending accumulator. -/
theorem splitCrlfAux_no_crlf (l : List Char) :
    ∀ acc : List Char, hasCrlf l = false →
      splitCrlfAux l acc = [String.mk (acc.reverse ++ l)] := by
  induction l with
  | nil => intro acc h; simp [splitCrlfAux]
  | cons c cs ih =>
    intro acc h
    rcases cs with _ | ⟨c2, cs2⟩
    · simp [splitCrlfAux]
    · simp only [hasCrlf, Bool.or_eq_false_iff, Bool.and_eq_false_iff] at h
      have hcond : ¬ (c = '\r' ∧ c2 = '\n') := by
        rcases h.1 with hx | hx <;> simp [of_decide_eq_false hx]
      rw [splitCrlfAux, if_neg hcond, ih (c :: acc) h.2]
      simp

/-- C8 as amended: the framer emits every CRLF-delimited segment and also the
trailing fragment after the last terminator; in particular a buffer holding a
single unterminated fragment is decoded whole as one candidate sentence
rather than discarded. -/
theorem unterminated_fragment_is_decoded (st : GpsState) (l : List Char)
    (h : hasCrlf l = false) :
    readData st (String.mk l) = processLine st (String.mk l) := by
  by_cases hl : String.mk l = ""
  · have hnil : l = [] := congrArg String.data hl
    subst hnil
    simp [readData, processLine, strStartsWith, listStartsWith]
  · rw [readData, if_neg hl]
    show processLines st (splitCrlfAux l []) = _
    rw [splitCrlfAux_no_crlf l [] h]
    simp only [List.reverse_nil, List.nil_append]
    cases hp : processLine st (String.mk l) <;>
      simp [processLines, hp]

/-- Witness for `unterminated_fragment_is_decoded` on an unterminated VTG
fragment. -/
theorem unterminated_fragment_is_decoded_witness :
    readData resetGpsData (String.mk "$GPVTG,,,,,,,7".data) =
      processLine resetGpsData (String.mk "$GPVTG,,,,,,,7".data) :=
  unterminated_fragment_is_decoded resetGpsData "$GPVTG,,,,,,,7".data
    (by decide)

/-- C10 counterexample: an active, 10-field RMC sentence whose longitude
coordinate field (field 5) is empty but whose latitude field is the malformed
"xx07.0" raises while decoding the latitude, so a previously aggregated
longitude survives instead of being set to absent. -/
theorem malformed_lat_keeps_longitude_counterexample :
    parseGprmcSentence { resetGpsData with longitude := some (5 : ℚ) }
      "$GPRMC,1,A,xx07.0,N,,,,,d" =
      Except.error { resetGpsData with
        longitude := some (5 : ℚ), time := some "1" } ∧
    10 ≤ (splitComma "$GPRMC,1,A,xx07.0,N,,,,,d").length ∧
    (splitComma "$GPRMC,1,A,xx07.0,N,,,,,d")[2]? = some "A" ∧
    (splitComma "$GPRMC,1,A,xx07.0,N,,,,,d")[5]? = some "" := by
  refine ⟨by rfl, by decide, by rfl, by rfl⟩

/-- C10 as amended: for an active RMC field list with at least 10 fields, an
empty latitude coordinate or hemisphere field always leaves the final
latitude and its hemisphere absent; and whenever the latitude pair converts
without raising, an empty longitude coordinate or hemisphere field likewise
leaves the final longitude pair absent.  (When the latitude field itself is
malformed, the decode raises before reaching the longitude fields, which is
the counterexample.) -/
theorem rmc_empty_coordinate_fields_cleared (st : GpsState)
    (parts : List String) (hlen : 10 ≤ parts.length)
    (hA : parts[2]? = some "A") :
    ((fld parts 3 = "" ∨ fld parts 4 = "") →
      (finalState (parseGprmcParts st parts)).latitude = none ∧
      (finalState (parseGprmcParts st parts)).latitudeDirection = none) ∧
    (∀ p : Option ℚ × Option String,
      convertToDecimal (fld parts 3) (fld parts 4) = Except.ok p →
      (fld parts 5 = "" ∨ fld parts 6 = "") →
      (finalState (parseGprmcParts st parts)).longitude = none ∧
      (finalState (parseGprmcParts st parts)).longitudeDirection = none) := by
  have h1 := get?_eq_fld parts 1 (by omega)
  have h3 := get?_eq_fld parts 3 (by omega)
  have h4 := get?_eq_fld parts 4 (by omega)
  have h5 := get?_eq_fld parts 5 (by omega)
  have h6 := get?_eq_fld parts 6 (by omega)
  have h7 := get?_eq_fld parts 7 (by omega)
  have h9 := get?_eq_fld parts 9 (by omega)
  constructor
  · intro hemp
    have hconv : convertToDecimal (fld parts 3) (fld parts 4) =
        Except.ok (none, none) := by
      rcases hemp with he | he <;> simp [convertToDecimal, he]
    simp only [parseGprmcParts, h1, h3, h4, h5, h6, h7, h9, hA, hconv]
    rcases hc : convertToDecimal (fld parts 5) (fld parts 6) with u | p2
    · simp [hc, finalState]
    · obtain ⟨lon, lonDir⟩ := p2
      by_cases h7e : fld parts 7 = ""
      · simp [hc, h7e, finalState]
      · rcases hpf : parseFloat (fld parts 7) with _ | v <;>
          simp [hc, h7e, hpf, finalState]
  · intro p hc34 hemp
    have hconv : convertToDecimal (fld parts 5) (fld parts 6) =
        Except.ok (none, none) := by
      rcases hemp with he | he <;> simp [convertToDecimal, he]
    obtain ⟨lat, latDir⟩ := p
    simp only [parseGprmcParts, h1, h3, h4, h5, h6, h7, h9, hA, hc34, hconv]
    by_cases h7e : fld parts 7 = ""
    · simp [h7e, finalState]
    · rcases hpf : parseFloat (fld parts 7) with _ | v <;>
        simp [h7e, hpf, finalState]

/-- Witness for `rmc_empty_coordinate_fields_cleared` on an active RMC
sentence with all coordinate fields empty, applied over stored coordinates. -/
theorem rmc_empty_coordinate_fields_cleared_witness :
    ((finalState (parseGprmcParts
        { resetGpsData with latitude := some 1, longitude := some 2 }
        (splitComma "$GPRMC,1,A,,,,,,,d"))).latitude = none ∧
      (finalState (parseGprmcParts
        { resetGpsData with latitude := some 1, longitude := some 2 }
        (splitComma "$GPRMC,1,A,,,,,,,d"))).latitudeDirection = none) ∧
    ((finalState (parseGprmcParts
        { resetGpsData with latitude := some 1, longitude := some 2 }
        (splitComma "$GPRMC,1,A,,,,,,,d"))).longitude = none ∧
      (finalState (parseGprmcParts
        { resetGpsData with latitude := some 1, longitude := some 2 }
        (splitComma "$GPRMC,1,A,,,,,,,d"))).longitudeDirection = none) :=
  ⟨(rmc_empty_coordinate_fields_cleared _ _ (by decide) (by rfl)).1
      (Or.inl (by rfl)),
   (rmc_empty_coordinate_fields_cleared _ _ (by decide) (by rfl)).2
      (none, none) (by rfl) (Or.inl (by rfl))⟩

end GpsModule
